import Mathlib

/-!
Shallow embedding of the load-generation core of `tls-benchmark.js`
(m2m-rsp-benchmark): the resilient request executor `makeRequest`
(lines 203-285), the metrics accumulator `trackProcess` (lines 131-187),
the provisioning workflow `completeRspFlow` (lines 479-909) and the
state-mutating part of the report generator `handleSummary`
(lines 1116-1236).

Conventions of the embedding:
* k6's `sleep` performs no computation visible to the program state, so a
  sleep is recorded as a trace event rather than executed.
* Durations and backoff times are JavaScript numbers used only in `+`,
  `/` and order comparisons here; they are embedded as `ℚ`.
* A k6 HTTP response is abstracted to the fields `makeRequest` inspects:
  `status`, `error` (the empty string when there is no transport error,
  exactly as k6 reports it) and `body`.
* The outcome of each iteration of the retry loop's `try` block is
  supplied by an environment function `env : Nat → AttemptEvent`
  (`env i` is what the i-th executed loop body observes: either the HTTP
  response that came back, or the message of an exception thrown inside
  the `try`).
-/

/-- The fields of a k6 HTTP response that `makeRequest` inspects.
`error` is `""` when the request had no transport error (k6 semantics:
`if (response.error)` tests for a non-empty string). -/
structure Response where
  status : Nat
  error : String
  body : String
  deriving Repr, DecidableEq

/-- What one iteration of the retry loop observes inside its `try` block:
either an HTTP response or an exception (its message). -/
inductive AttemptEvent where
  | resp (r : Response)
  | exn (msg : String)
  deriving Repr, DecidableEq

/-- A sleep performed by the retry loop: the deterministic exponential
backoff of line 227, or the random jitter of line 233 (only when the
virtual-user number `__VU` exceeds 1). -/
inductive SleepEvent where
  | backoff (seconds : ℚ)
  | jitter (seconds : ℚ)
  deriving Repr, DecidableEq

/-- The synthetic object returned at lines 278-284 after the retry budget
is exhausted: `{status: 0, body: "", error: lastError,
error_code: 'max_retries_exceeded', json: (path) => undefined}`. -/
structure SyntheticFailure where
  status : Nat
  body : String
  error : Option String
  error_code : String
  json : String → Option String

/-- What `makeRequest` returns: on the success path (line 267) the raw
response object; after budget exhaustion the synthetic failure object. -/
inductive ReqResult where
  | ok (r : Response)
  | failed (f : SyntheticFailure)

/-- Result of a `makeRequest` call together with its observable trace:
the number of executed loop bodies (each issues at most one physical
HTTP attempt; with `env` returning only `.resp` events, exactly one)
and the sleeps performed, in order. -/
structure ReqTrace where
  result : ReqResult
  attempts : Nat
  sleeps : List SleepEvent

/-- The `lastError` value recorded by the loop body that consumed a given
event and then continued retrying.  An exception stores its message
(line 271); a transport error stores `response.error` (line 250); a
429/5xx response first stores `HTTP status N` (line 259) but then the
`sleep(backoffTime * 2)` on line 262 throws a `ReferenceError` — the
`const backoffTime` of line 225 is scoped to the `if (attempt > 0)`
block — whose message overwrites `lastError` in the `catch` (line 271).
(For a non-retryable response the loop returns instead, so the value
given here is never recorded.) -/
def recordedError : AttemptEvent → Option String
  | .exn msg => some msg
  | .resp r => if r.error ≠ "" then some r.error else some "backoffTime is not defined"

/-- The retry loop of `makeRequest` (lines 221-274).  `attempt` and
`lastError` are the mutable variables of the source; `issued` counts
executed loop bodies and `sleeps` accumulates the trace.  `fuel` is an
upper bound on the remaining iterations, consumed once per body; since
`attempt` grows by at least 1 per body, starting with
`fuel = maxRetries + 1` the fuel never runs out before
`attempt > maxRetries` does, so the `fuel = 0` branch mirrors the same
post-loop return as the `attempt > maxRetries` exit.

Faithfulness notes, keyed to the source:
* line 223-228: backoff `baseBackoff * 2^(attempt-1)` slept only when
  `attempt > 0`;
* line 231-234: jitter slept only when `__VU > 1`;
* line 247-253: a transport error (`response.error` non-empty) records
  the error and retries (`attempt++`);
* line 256-263: a 429 or ≥500 status records `HTTP status N`, increments
  `attempt`, and then line 262 `sleep(backoffTime * 2)` throws a
  `ReferenceError` (out-of-scope `backoffTime`), caught at line 268,
  which overwrites `lastError` and increments `attempt` a second time —
  hence `attempt + 2` and `recordedError`;
* line 267: any other response is returned as-is ("Success case");
* lines 278-284: the synthetic failure returned after the loop. -/
def makeRequestLoop (env : Nat → AttemptEvent) (jitterOf : Nat → ℚ) (vu : Nat)
    (maxRetries : Nat) (baseBackoff : ℚ) :
    Nat → Nat → Nat → Option String → List SleepEvent → ReqTrace
  | 0, _attempt, issued, lastError, sleeps =>
    ⟨.failed ⟨0, "", lastError, "max_retries_exceeded", fun _ => none⟩, issued, sleeps⟩
  | fuel + 1, attempt, issued, lastError, sleeps =>
    if maxRetries < attempt then
      ⟨.failed ⟨0, "", lastError, "max_retries_exceeded", fun _ => none⟩, issued, sleeps⟩
    else
      let sleeps := sleeps ++
        (if 0 < attempt then [SleepEvent.backoff (baseBackoff * 2 ^ (attempt - 1))] else [])
      let sleeps := sleeps ++
        (if 1 < vu then [SleepEvent.jitter (jitterOf issued)] else [])
      match env issued with
      | .exn msg =>
        makeRequestLoop env jitterOf vu maxRetries baseBackoff
          fuel (attempt + 1) (issued + 1) (some msg) sleeps
      | .resp r =>
        if r.error ≠ "" then
          makeRequestLoop env jitterOf vu maxRetries baseBackoff
            fuel (attempt + 1) (issued + 1) (some r.error) sleeps
        else if r.status = 429 ∨ 500 ≤ r.status then
          makeRequestLoop env jitterOf vu maxRetries baseBackoff
            fuel (attempt + 2) (issued + 1) (some "backoffTime is not defined") sleeps
        else
          ⟨.ok r, issued + 1, sleeps⟩

/-- `makeRequest` (lines 203-285): the loop entered with `attempt = 0`,
`lastError = null`, and the caller-merged config (`maxRetries`,
`baseBackoff`). -/
def makeRequest (env : Nat → AttemptEvent) (jitterOf : Nat → ℚ) (vu : Nat)
    (maxRetries : Nat) (baseBackoff : ℚ) : ReqTrace :=
  makeRequestLoop env jitterOf vu maxRetries baseBackoff (maxRetries + 1) 0 0 none []

/-- A response `makeRequest` does not retry: no transport error, not 429,
not a 5xx (the fall-through to line 267). -/
def nonRetryable (r : Response) : Prop :=
  r.error = "" ∧ r.status ≠ 429 ∧ r.status < 500

instance (r : Response) : Decidable (nonRetryable r) := by
  unfold nonRetryable; infer_instance

/-- Environment for the C1 scenario: the first two physical attempts
answer HTTP 500, every later one HTTP 200. -/
def env500 : Nat → AttemptEvent := fun i =>
  if i ≤ 1 then .resp ⟨500, "", ""⟩ else .resp ⟨200, "", ""⟩

/-- Environment where every attempt throws. -/
def envExn : Nat → AttemptEvent := fun _ => .exn "boom"

/-- Environment whose first attempt yields a plain HTTP 400 response. -/
def env400 : Nat → AttemptEvent := fun _ => .resp ⟨400, "", "bad"⟩

/-- Zero jitter draw (irrelevant when `vu = 1`). -/
def noJitter : Nat → ℚ := fun _ => 0

/-!
## Metrics accumulator (`trackProcess`, lines 131-187)

`processMetrics` is a JavaScript object mapping a process name to its
accumulator; it is embedded as an insertion-ordered association list with
unique keys.  A detail record keeps the fields later re-read by the
report generator (`detail.duration`, `detail.success`); the wall-clock
`timestamp` string and the caller-specific extra fields of line 170-175
are environment data not inspected by any computation modelled here.
-/

/-- One entry of a series' `details` array (line 170-175), restricted to
the fields the program reads back. -/
structure DetailRec where
  duration : ℚ
  success : Bool
  deriving Repr, DecidableEq

/-- One value of `processMetrics` (lines 133-142) plus the three derived
fields that `handleSummary` later writes onto the same object
(lines 1120-1126); `none` models the field being absent.
`minDuration = none` models the initial `Infinity`. -/
structure Series where
  count : Nat
  totalDuration : ℚ
  successCount : Nat
  failCount : Nat
  bottleneckCount : Nat
  maxDuration : ℚ
  minDuration : Option ℚ
  details : List DetailRec
  avgDuration : Option ℚ
  successRate : Option ℚ
  bottleneckRate : Option ℚ
  deriving Repr, DecidableEq

/-- The fresh accumulator installed at lines 133-142. -/
def emptySeries : Series :=
  ⟨0, 0, 0, 0, 0, 0, none, [], none, none, none⟩

/-- `processMetrics`: name-keyed, insertion-ordered. -/
abbrev MetricsState : Type := List (String × Series)

/-- Read `processMetrics[name]`, or the fresh accumulator the code would
install if the key is absent (lines 132-143). -/
def getSeries : MetricsState → String → Series
  | [], _ => emptySeries
  | p :: rest, name => if p.1 = name then p.2 else getSeries rest name

/-- Write `processMetrics[name] = v`: update in place if present, else
append (JS object insertion order). -/
def setSeries : MetricsState → String → Series → MetricsState
  | [], name, v => [(name, v)]
  | p :: rest, name, v =>
    if p.1 = name then (name, v) :: rest else p :: setSeries rest name v

/-- `bottleneckThreshold = 5.0` (line 8). -/
def bottleneckThreshold : ℚ := 5

/-- The field updates `trackProcess` applies to one accumulator
(lines 145-175): count, totalDuration, success/fail split, bottleneck
check (strict `duration > bottleneckThreshold`, line 154), max, min,
details push.  The source performs these as successive statements, each
writing a distinct field and reading only fields not yet written, so
they are collected into one record update.  `duration < Infinity` holds
for every finite duration, so the `minDuration = none` (Infinity) case
always adopts the new duration. -/
def updateSeries (m : Series) (duration : ℚ) (success : Bool) : Series :=
  { m with
    count := m.count + 1,
    totalDuration := m.totalDuration + duration,
    successCount := m.successCount + (if success then 1 else 0),
    failCount := m.failCount + (if success then 0 else 1),
    bottleneckCount := m.bottleneckCount + (if bottleneckThreshold < duration then 1 else 0),
    maxDuration := if m.maxDuration < duration then duration else m.maxDuration,
    minDuration := some (match m.minDuration with
      | none => duration
      | some q => if duration < q then duration else q),
    details := m.details ++ [⟨duration, success⟩] }

/-- `trackProcess(name, duration, success, details)` (lines 131-187).
The trailing k6 metric emissions (lines 177-186) write to k6's own
engine, not to `processMetrics`, and are not part of the state. -/
def trackProcess (s : MetricsState) (name : String) (duration : ℚ) (success : Bool) :
    MetricsState :=
  setSeries s name (updateSeries (getSeries s name) duration success)

/-!
## Report generation (`handleSummary`, lines 1116-1236)

Only the first loop (lines 1118-1128) touches `processMetrics`: it
assigns `avgDuration`, `successRate` and `bottleneckRate` onto each
stored series object.  Everything after it builds fresh objects
(`sortedProcesses` maps to new records at lines 1131-1137) or reads
fields, so the state effect of `handleSummary` is exactly this loop.
-/

/-- The assignment lines 1119-1127 applied to one series. -/
def summarizeSeries (m : Series) : Series :=
  if 0 < m.count then
    { m with
      avgDuration := some (m.totalDuration / m.count),
      successRate := some ((m.successCount : ℚ) / m.count),
      bottleneckRate := some ((m.bottleneckCount : ℚ) / m.count) }
  else
    { m with avgDuration := some 0, successRate := some 0, bottleneckRate := some 0 }

/-- The effect of `handleSummary` on `processMetrics` (the
`for (const [name, metrics] of Object.entries(processMetrics))` loop at
lines 1118-1128). -/
def handleSummaryUpdate (s : MetricsState) : MetricsState :=
  s.map (fun p => (p.1, summarizeSeries p.2))

/-- The accumulator fields of a series — everything `trackProcess`
maintains, excluding the derived fields `handleSummary` writes. -/
def accumView (m : Series) : Nat × ℚ × Nat × Nat × Nat × ℚ × Option ℚ × List DetailRec :=
  (m.count, m.totalDuration, m.successCount, m.failCount, m.bottleneckCount,
    m.maxDuration, m.minDuration, m.details)

/-!
## Workflow (`completeRspFlow`, lines 479-909)

One iteration of the provisioning flow.  Each step's observable outcome
is abstracted to its success flag (`res.status === 200`, plus, for key
establishment, the required-field checks folded into
`initSuccess && completeSuccess` at line 684) and its measured duration.
The control flow is modelled exactly as written:

* Step 1 `euicc_registration` (group at 497-559) always records; on
  failure the `return` at line 555 exits only the *group callback*, so
  execution continues with group 2.
* Step 2 `isdp_creation` (group at 561-612) always records.
* Steps 3-4 run only under the guard at line 615
  (`processMetrics.isdp_creation.successCount > 0`); steps 5-6 only
  under the guard at lines 742-743
  (`processMetrics.profile_preparation.successCount > 0`).  Both guards
  read the *global* metrics state.
* Step 7 `status_check` (group at 833-892) runs unconditionally.
* The aggregate `complete_rsp_flow` record (line 898) is always emitted
  with `success = true`.
-/

/-- Per-step outcomes and durations of one flow iteration. -/
structure FlowInput where
  regOk : Bool
  isdpOk : Bool
  keyOk : Bool
  prepOk : Bool
  instOk : Bool
  enableOk : Bool
  statusOk : Bool
  d1 : ℚ
  d2 : ℚ
  d3 : ℚ
  d4 : ℚ
  d5 : ℚ
  d6 : ℚ
  d7 : ℚ
  dflow : ℚ
  deriving Repr, DecidableEq

/-- Record one operation: update the metrics state via `trackProcess`
and append `(name, success)` to the emission log. -/
def emitRecord (acc : MetricsState × List (String × Bool)) (name : String)
    (duration : ℚ) (success : Bool) : MetricsState × List (String × Bool) :=
  (trackProcess acc.1 name duration success, acc.2 ++ [(name, success)])

/-- `completeRspFlow` (lines 479-909): the sequence of `trackProcess`
calls one iteration performs, starting from metrics state `s`.  Returns
the final state and the ordered log of records emitted. -/
def completeRspFlow (s : MetricsState) (inp : FlowInput) :
    MetricsState × List (String × Bool) :=
  let acc := emitRecord (s, []) "euicc_registration" inp.d1 inp.regOk
  let acc := emitRecord acc "isdp_creation" inp.d2 inp.isdpOk
  let acc :=
    if 0 < (getSeries acc.1 "isdp_creation").successCount then
      let acc := emitRecord acc "key_establishment" inp.d3 inp.keyOk
      let acc := emitRecord acc "profile_preparation" inp.d4 inp.prepOk
      if 0 < (getSeries acc.1 "profile_preparation").successCount then
        let acc := emitRecord acc "profile_installation" inp.d5 inp.instOk
        emitRecord acc "profile_enabling" inp.d6 inp.enableOk
      else acc
    else acc
  let acc := emitRecord acc "status_check" inp.d7 inp.statusOk
  emitRecord acc "complete_rsp_flow" inp.dflow true

/-- The per-step records of an emission log: every record except the
aggregate `complete_rsp_flow` one (which the spec's data model keeps
distinct from the per-step records). -/
def perStepRecords (log : List (String × Bool)) : List (String × Bool) :=
  log.filter (fun r => r.1 ≠ "complete_rsp_flow")

/-- A flow iteration whose first step (eUICC registration) fails and
whose later requests also fail. -/
def flowFailAtStep1 : FlowInput :=
  ⟨false, false, false, false, false, false, false, 1, 1, 1, 1, 1, 1, 1, 8⟩

/-- The per-series counting invariant of the spec:
`count == successCount + failCount`. -/
def seriesInv (m : Series) : Prop :=
  m.count = m.successCount + m.failCount

/-- The counting invariant over all stored series. -/
def stateInv (s : MetricsState) : Prop :=
  ∀ p ∈ s, seriesInv p.2

/-- Re-derive the bottleneck classification from the stored raw
durations: how many recorded operations strictly exceed the fixed
threshold. -/
def recount (l : List DetailRec) : Nat :=
  (l.filter (fun r => bottleneckThreshold < r.duration)).length

/-- A series' bottleneck counter agrees with re-derivation from its
stored details, over the whole state. -/
def bottleneckInv (s : MetricsState) : Prop :=
  ∀ p ∈ s, p.2.bottleneckCount = recount p.2.details

/-- The synthetic failure produced when every attempt throws `boom` and
the budget is 0. -/
def synthBoom : SyntheticFailure :=
  ⟨0, "", some "boom", "max_retries_exceeded", fun _ => none⟩

/-!
## General lemmas about the retry loop
-/

/-- Each executed loop body consumes one unit of fuel, so the number of
executed bodies is bounded by `issued + fuel`. -/
theorem makeRequestLoop_attempts_le (env : Nat → AttemptEvent) (jitterOf : Nat → ℚ)
    (vu maxRetries : Nat) (baseBackoff : ℚ) :
    ∀ (fuel attempt issued : Nat) (lastError : Option String) (sleeps : List SleepEvent),
      (makeRequestLoop env jitterOf vu maxRetries baseBackoff fuel attempt issued
        lastError sleeps).attempts ≤ issued + fuel := by
  intro fuel
  induction fuel with
  | zero =>
    intro attempt issued lastError sleeps
    simp [makeRequestLoop]
  | succ n ih =>
    intro attempt issued lastError sleeps
    simp only [makeRequestLoop]
    split
    · simp
    · cases henv : env issued with
      | exn msg =>
        simp only [henv]
        exact le_trans (ih _ _ _ _) (by omega)
      | resp r =>
        simp only [henv]
        split
        · exact le_trans (ih _ _ _ _) (by omega)
        · split
          · exact le_trans (ih _ _ _ _) (by omega)
          · simp

/-- What the loop can return: either the first non-retryable response it
saw, or the synthetic exhaustion object, whose `error` field is the
`lastError` recorded by the last executed body (or the incoming
`lastError` when no body ran). -/
theorem makeRequestLoop_result_spec (env : Nat → AttemptEvent) (jitterOf : Nat → ℚ)
    (vu maxRetries : Nat) (baseBackoff : ℚ) :
    ∀ (fuel attempt issued : Nat) (lastError : Option String) (sleeps : List SleepEvent),
      (∃ r, (makeRequestLoop env jitterOf vu maxRetries baseBackoff fuel attempt issued
          lastError sleeps).result = .ok r ∧ nonRetryable r) ∨
      (∃ f, (makeRequestLoop env jitterOf vu maxRetries baseBackoff fuel attempt issued
          lastError sleeps).result = .failed f ∧
        f.status = 0 ∧ f.body = "" ∧ f.error_code = "max_retries_exceeded" ∧
        (∀ p, f.json p = none) ∧
        ((makeRequestLoop env jitterOf vu maxRetries baseBackoff fuel attempt issued
            lastError sleeps).attempts = issued ∧ f.error = lastError ∨
         issued < (makeRequestLoop env jitterOf vu maxRetries baseBackoff fuel attempt issued
            lastError sleeps).attempts ∧
          f.error = recordedError (env
            ((makeRequestLoop env jitterOf vu maxRetries baseBackoff fuel attempt issued
              lastError sleeps).attempts - 1)))) := by
  intro fuel
  induction fuel with
  | zero =>
    intro attempt issued lastError sleeps
    exact Or.inr ⟨_, rfl, rfl, rfl, rfl, fun _ => rfl, Or.inl ⟨rfl, rfl⟩⟩
  | succ n ih =>
    intro attempt issued lastError sleeps
    simp only [makeRequestLoop]
    split
    · exact Or.inr ⟨_, rfl, rfl, rfl, rfl, fun _ => rfl, Or.inl ⟨rfl, rfl⟩⟩
    · cases henv : env issued with
      | exn msg =>
        simp only [henv]
        rcases ih (attempt + 1) (issued + 1) (some msg) _ with h | ⟨f, hf, h0, hb, hc, hj, hlast⟩
        · exact Or.inl h
        · refine Or.inr ⟨f, hf, h0, hb, hc, hj, ?_⟩
          rcases hlast with ⟨ha, he⟩ | ⟨ha, he⟩
          · refine Or.inr ⟨by omega, ?_⟩
            rw [ha]
            simpa [recordedError, henv] using he
          · exact Or.inr ⟨by omega, he⟩
      | resp r =>
        simp only [henv]
        split
        · rcases ih (attempt + 1) (issued + 1) (some r.error) _ with h | ⟨f, hf, h0, hb, hc, hj, hlast⟩
          · exact Or.inl h
          · refine Or.inr ⟨f, hf, h0, hb, hc, hj, ?_⟩
            rcases hlast with ⟨ha, he⟩ | ⟨ha, he⟩
            · refine Or.inr ⟨by omega, ?_⟩
              rw [ha]
              simp only [Nat.add_sub_cancel, recordedError, henv]
              rw [if_pos (by assumption)]
              exact he
            · exact Or.inr ⟨by omega, he⟩
        · split
          · rcases ih (attempt + 2) (issued + 1) (some "backoffTime is not defined") _ with
              h | ⟨f, hf, h0, hb, hc, hj, hlast⟩
            · exact Or.inl h
            · refine Or.inr ⟨f, hf, h0, hb, hc, hj, ?_⟩
              rcases hlast with ⟨ha, he⟩ | ⟨ha, he⟩
              · refine Or.inr ⟨by omega, ?_⟩
                rw [ha]
                simp only [Nat.add_sub_cancel, recordedError, henv]
                rw [if_neg (by assumption)]
                exact he
              · exact Or.inr ⟨by omega, he⟩
          · refine Or.inl ⟨r, rfl, ?_, ?_, ?_⟩
            · simpa using (by assumption : ¬r.error ≠ "")
            · intro h429
              exact (by assumption : ¬(r.status = 429 ∨ 500 ≤ r.status)) (Or.inl h429)
            · have h := (by assumption : ¬(r.status = 429 ∨ 500 ≤ r.status))
              omega

/-- If the `k`-th loop body receives a non-retryable response, the loop
executes no body after it. -/
theorem makeRequestLoop_stops (env : Nat → AttemptEvent) (jitterOf : Nat → ℚ)
    (vu maxRetries : Nat) (baseBackoff : ℚ) (k : Nat) (r : Response)
    (henv : env k = .resp r) (hr : nonRetryable r) :
    ∀ (fuel attempt issued : Nat) (lastError : Option String) (sleeps : List SleepEvent),
      issued ≤ k →
      (makeRequestLoop env jitterOf vu maxRetries baseBackoff fuel attempt issued
        lastError sleeps).attempts ≤ k + 1 := by
  intro fuel
  induction fuel with
  | zero =>
    intro attempt issued lastError sleeps hk
    simp [makeRequestLoop]; omega
  | succ n ih =>
    intro attempt issued lastError sleeps hk
    simp only [makeRequestLoop]
    split
    · simp; omega
    · rcases Nat.lt_or_ge issued k with hik | hik
      · cases henv2 : env issued with
        | exn msg =>
          simp only [henv2]
          exact ih _ _ _ _ (by omega)
        | resp r2 =>
          simp only [henv2]
          split
          · exact ih _ _ _ _ (by omega)
          · split
            · exact ih _ _ _ _ (by omega)
            · simp; omega
      · have hik' : issued = k := by omega
        subst hik'
        simp only [henv]
        have h2 : ¬(r.status = 429 ∨ 500 ≤ r.status) := by
          rcases hr with ⟨-, h1', h2'⟩; omega
        simp [hr.1, h2]

/-!
## General lemmas about the metrics state
-/

/-- Writing a series and reading the same key gives it back. -/
theorem getSeries_setSeries_self :
    ∀ (s : MetricsState) (name : String) (v : Series),
      getSeries (setSeries s name v) name = v := by
  intro s
  induction s with
  | nil => intro name v; simp [setSeries, getSeries]
  | cons p rest ih =>
    intro name v
    by_cases h : p.1 = name
    · simp [setSeries, h, getSeries]
    · simp [setSeries, h, getSeries, ih]

/-- Every entry of the written state is the new entry or an old one. -/
theorem mem_setSeries :
    ∀ (s : MetricsState) (name : String) (v : Series) (p : String × Series),
      p ∈ setSeries s name v → p = (name, v) ∨ p ∈ s := by
  intro s
  induction s with
  | nil => intro name v p hp; simpa [setSeries] using hp
  | cons q rest ih =>
    intro name v p hp
    by_cases h : q.1 = name
    · simp only [setSeries, if_pos h, List.mem_cons] at hp
      rcases hp with hp | hp
      · exact Or.inl hp
      · exact Or.inr (List.mem_cons_of_mem _ hp)
    · simp only [setSeries, if_neg h, List.mem_cons] at hp
      rcases hp with hp | hp
      · exact Or.inr (by simp [hp])
      · rcases ih name v p hp with hh | hh
        · exact Or.inl hh
        · exact Or.inr (List.mem_cons_of_mem _ hh)

/-- The series read back for a key is either stored in the state or the
fresh accumulator. -/
theorem getSeries_mem_or_empty :
    ∀ (s : MetricsState) (name : String),
      (∃ p ∈ s, p.2 = getSeries s name) ∨ getSeries s name = emptySeries := by
  intro s
  induction s with
  | nil => intro name; exact Or.inr rfl
  | cons q rest ih =>
    intro name
    by_cases h : q.1 = name
    · exact Or.inl ⟨q, List.mem_cons_self _ _, by simp [getSeries, h]⟩
    · rcases ih name with ⟨p, hp, hpe⟩ | he
      · exact Or.inl ⟨p, List.mem_cons_of_mem _ hp, by simp [getSeries, h, hpe]⟩
      · exact Or.inr (by simp [getSeries, h, he])

/-- `trackProcess` read back at the updated key. -/
theorem getSeries_trackProcess_self (s : MetricsState) (name : String) (duration : ℚ)
    (success : Bool) :
    getSeries (trackProcess s name duration success) name
      = updateSeries (getSeries s name) duration success := by
  simp [trackProcess, getSeries_setSeries_self]

/-- `updateSeries` preserves the counting invariant. -/
theorem seriesInv_updateSeries (m : Series) (duration : ℚ) (success : Bool)
    (hm : seriesInv m) : seriesInv (updateSeries m duration success) := by
  cases success <;> simp [seriesInv, updateSeries] at hm ⊢ <;> omega

/-- The fresh accumulator satisfies the counting invariant. -/
theorem seriesInv_empty : seriesInv emptySeries := by
  simp [seriesInv, emptySeries]

/-- A state satisfying the counting invariant yields an invariant series
for every key. -/
theorem seriesInv_getSeries (s : MetricsState) (name : String) (hs : stateInv s) :
    seriesInv (getSeries s name) := by
  rcases getSeries_mem_or_empty s name with ⟨p, hp, hpe⟩ | he
  · exact hpe ▸ hs p hp
  · exact he ▸ seriesInv_empty

/-- Classification re-derivation over an extended details list. -/
theorem recount_append (l : List DetailRec) (d : ℚ) (b : Bool) :
    recount (l ++ [⟨d, b⟩]) = recount l + (if bottleneckThreshold < d then 1 else 0) := by
  by_cases h : bottleneckThreshold < d <;>
    simp [recount, List.filter_append, h]

/-!
## Claims
-/

/-- Claim C1 (code bug): with `maxRetries = 2`, `baseBackoff = 5` and the
physical attempts answering 500, 500, 200, the executor does NOT behave
as specified (3 attempts, success, backoffs 5 s then 10 s).  Because the
429/5xx branch's `sleep(backoffTime * 2)` (line 262) references the
block-scoped `backoffTime` of line 225 out of scope, each 5xx response
consumes two units of the retry budget: only 2 physical attempts are
issued, a single 10 s backoff is slept, and the call returns the
synthetic `max_retries_exceeded` failure instead of the 200 response. -/
theorem claim_c1_scenario_eval :
    (makeRequest env500 noJitter 1 2 5).attempts = 2 ∧
    (makeRequest env500 noJitter 1 2 5).sleeps = [SleepEvent.backoff 10] ∧
    (makeRequest env500 noJitter 1 2 5).result =
      .failed ⟨0, "", some "backoffTime is not defined", "max_retries_exceeded",
        fun _ => none⟩ :=
  ⟨rfl, by with_unfolding_all decide, rfl⟩

/-- Claim C2 (code bug): an iteration of `completeRspFlow` whose first
step (eUICC registration) fails does NOT stop after one record.  The
`return` at line 555 exits only the k6 group callback, so the flow goes
on to record `isdp_creation`, the unconditional `status_check`, and the
aggregate `complete_rsp_flow`: 3 per-step records are emitted where the
spec requires exactly 1. -/
theorem claim_c2_flow_records_eval :
    (completeRspFlow [] flowFailAtStep1).2 =
      [("euicc_registration", false), ("isdp_creation", false),
       ("status_check", false), ("complete_rsp_flow", true)] ∧
    (perStepRecords (completeRspFlow [] flowFailAtStep1).2).length = 3 := by
  constructor <;> with_unfolding_all decide

/-- Claim C3, counterexample: a first response with HTTP 400 and no
transport error makes `makeRequest` return the raw response object
through its normal return path (line 267, the same path as a 2xx) after
a single attempt — not a distinguished failure outcome. -/
theorem claim_c3_counterexample :
    (makeRequest env400 noJitter 1 2 5).result = .ok ⟨400, "", "bad"⟩ ∧
    (makeRequest env400 noJitter 1 2 5).attempts = 1 :=
  ⟨rfl, rfl⟩

/-- Claim C3, amended: a response with a 4xx status other than 429 and
no transport error never triggers a retry — the executor returns
immediately after the first attempt — but what it returns is the raw
response itself, which callers must inspect, not a failure outcome. -/
theorem claim_c3_no_retry_returns_raw (env : Nat → AttemptEvent) (jitterOf : Nat → ℚ)
    (vu maxRetries : Nat) (baseBackoff : ℚ) (r : Response)
    (h1 : env 0 = .resp r) (h2 : r.error = "") (h3 : 400 ≤ r.status)
    (h4 : r.status < 500) (h5 : r.status ≠ 429) :
    (makeRequest env jitterOf vu maxRetries baseBackoff).result = .ok r ∧
    (makeRequest env jitterOf vu maxRetries baseBackoff).attempts = 1 := by
  have h429 : ¬(r.status = 429 ∨ 500 ≤ r.status) := by omega
  rw [makeRequest]
  simp only [makeRequestLoop]
  rw [if_neg (Nat.not_lt_zero maxRetries)]
  simp [h1, h2, h429]

/-- Witness for the amended claim C3 at a concrete 400 response. -/
theorem claim_c3_witness :
    (makeRequest env400 noJitter 1 2 5).result = .ok ⟨400, "", "bad"⟩ ∧
    (makeRequest env400 noJitter 1 2 5).attempts = 1 :=
  claim_c3_no_retry_returns_raw env400 noJitter 1 2 5 ⟨400, "", "bad"⟩
    rfl rfl (by decide) (by decide) (by decide)

/-- Claim C4: a response with status 400, 401, 403 or 404 (and no
transport error) never triggers a retry: if the `k`-th attempt receives
one, the executor performs at most `k + 1` attempts in total. -/
theorem claim_c4_fatal_status_no_retry (env : Nat → AttemptEvent) (jitterOf : Nat → ℚ)
    (vu maxRetries : Nat) (baseBackoff : ℚ) (k : Nat) (r : Response)
    (h1 : env k = .resp r) (h2 : r.error = "")
    (h3 : r.status = 400 ∨ r.status = 401 ∨ r.status = 403 ∨ r.status = 404) :
    (makeRequest env jitterOf vu maxRetries baseBackoff).attempts ≤ k + 1 := by
  have hr : nonRetryable r := ⟨h2, by omega, by omega⟩
  have h := makeRequestLoop_stops env jitterOf vu maxRetries baseBackoff k r h1 hr
    (maxRetries + 1) 0 0 none [] (Nat.zero_le k)
  simpa [makeRequest] using h

/-- Witness for claim C4 at a concrete 400 response on the first
attempt. -/
theorem claim_c4_witness :
    (makeRequest env400 noJitter 1 2 5).attempts ≤ 0 + 1 :=
  claim_c4_fatal_status_no_retry env400 noJitter 1 2 5 0 ⟨400, "", "bad"⟩
    rfl rfl (Or.inl rfl)

/-- Claim C5: `trackProcess` preserves `count = successCount + failCount`
for every series, incrementing `count` by exactly one and exactly one of
the success/fail counters. -/
theorem claim_c5_count_invariant (s : MetricsState) (name : String) (duration : ℚ)
    (success : Bool) (hs : stateInv s) :
    stateInv (trackProcess s name duration success) ∧
    (getSeries (trackProcess s name duration success) name).count
      = (getSeries s name).count + 1 ∧
    (getSeries (trackProcess s name duration success) name).successCount
      = (getSeries s name).successCount + (if success then 1 else 0) ∧
    (getSeries (trackProcess s name duration success) name).failCount
      = (getSeries s name).failCount + (if success then 0 else 1) := by
  refine ⟨?_, ?_, ?_, ?_⟩
  · intro p hp
    simp only [trackProcess] at hp
    rcases mem_setSeries _ _ _ p hp with hp' | hp'
    · subst hp'
      exact seriesInv_updateSeries _ _ _ (seriesInv_getSeries s name hs)
    · exact hs p hp'
  · simp [getSeries_trackProcess_self, updateSeries]
  · simp [getSeries_trackProcess_self, updateSeries]
  · simp [getSeries_trackProcess_self, updateSeries]

/-- Witness for claim C5: one successful record into the empty state. -/
theorem claim_c5_witness :
    stateInv ([] : MetricsState) ∧
    (stateInv (trackProcess [] "op" 1 true) ∧
     (getSeries (trackProcess [] "op" 1 true) "op").count
       = (getSeries [] "op").count + 1 ∧
     (getSeries (trackProcess [] "op" 1 true) "op").successCount
       = (getSeries [] "op").successCount + (if true then 1 else 0) ∧
     (getSeries (trackProcess [] "op" 1 true) "op").failCount
       = (getSeries [] "op").failCount + (if true then 0 else 1)) :=
  ⟨fun p hp => absurd hp (List.not_mem_nil p),
   claim_c5_count_invariant [] "op" 1 true (fun p hp => absurd hp (List.not_mem_nil p))⟩

/-- Claim C6: the bottleneck counter is incremented exactly when the
record's own duration strictly exceeds the fixed 5-second threshold
(depending on nothing else), and re-deriving the classification from
the stored raw durations reproduces the counter. -/
theorem claim_c6_bottleneck_classification (s : MetricsState) (name : String)
    (duration : ℚ) (success : Bool) :
    ((getSeries (trackProcess s name duration success) name).bottleneckCount
      = (getSeries s name).bottleneckCount
        + (if bottleneckThreshold < duration then 1 else 0)) ∧
    (bottleneckInv s → bottleneckInv (trackProcess s name duration success)) := by
  constructor
  · simp [getSeries_trackProcess_self, updateSeries]
  · intro hs p hp
    simp only [trackProcess] at hp
    rcases mem_setSeries _ _ _ p hp with hp' | hp'
    · subst hp'
      have hbase : (getSeries s name).bottleneckCount
          = recount (getSeries s name).details := by
        rcases getSeries_mem_or_empty s name with ⟨q, hq, hqe⟩ | he
        · exact hqe ▸ hs q hq
        · rw [he]; rfl
      simp [updateSeries, recount_append, hbase]
    · exact hs p hp'

/-- Witness for claim C6: a 6-second record into the empty state is
classified as a bottleneck and re-derivation agrees. -/
theorem claim_c6_witness :
    ((getSeries (trackProcess [] "op" 6 true) "op").bottleneckCount
      = (getSeries [] "op").bottleneckCount
        + (if bottleneckThreshold < 6 then 1 else 0)) ∧
    bottleneckInv (trackProcess [] "op" 6 true) :=
  ⟨(claim_c6_bottleneck_classification [] "op" 6 true).1,
   (claim_c6_bottleneck_classification [] "op" 6 true).2
     (fun p hp => absurd hp (List.not_mem_nil p))⟩

/-- Claim C7: the executor performs at most `maxRetries + 1` attempts,
whatever the sequence of responses and exceptions. -/
theorem claim_c7_attempts_bound (env : Nat → AttemptEvent) (jitterOf : Nat → ℚ)
    (vu maxRetries : Nat) (baseBackoff : ℚ) :
    (makeRequest env jitterOf vu maxRetries baseBackoff).attempts ≤ maxRetries + 1 := by
  have h := makeRequestLoop_attempts_le env jitterOf vu maxRetries baseBackoff
    (maxRetries + 1) 0 0 none []
  simpa [makeRequest] using h

/-- Claim C8: every executor call terminates in a typed result — either
the first non-retryable response, or, when the budget is exhausted, the
synthetic failure (status 0, empty body, `max_retries_exceeded`)
carrying the error recorded by the last executed attempt (`none` when no
attempt ran). -/
theorem claim_c8_typed_outcome (env : Nat → AttemptEvent) (jitterOf : Nat → ℚ)
    (vu maxRetries : Nat) (baseBackoff : ℚ) :
    (∃ r, (makeRequest env jitterOf vu maxRetries baseBackoff).result = .ok r ∧
      nonRetryable r) ∨
    (∃ f, (makeRequest env jitterOf vu maxRetries baseBackoff).result = .failed f ∧
      f.status = 0 ∧ f.body = "" ∧ f.error_code = "max_retries_exceeded" ∧
      (∀ p, f.json p = none) ∧
      ((makeRequest env jitterOf vu maxRetries baseBackoff).attempts = 0 ∧
          f.error = none ∨
        0 < (makeRequest env jitterOf vu maxRetries baseBackoff).attempts ∧
          f.error = recordedError (env
            ((makeRequest env jitterOf vu maxRetries baseBackoff).attempts - 1)))) := by
  have h := makeRequestLoop_result_spec env jitterOf vu maxRetries baseBackoff
    (maxRetries + 1) 0 0 none []
  simpa [makeRequest] using h

/-- Claim C9, counterexample: report generation is not a read-only pass —
running `handleSummary`'s metrics loop on a state holding one recorded
operation changes the stored series (it gains the derived fields). -/
theorem claim_c9_counterexample :
    handleSummaryUpdate (trackProcess [] "op" 1 true) ≠ trackProcess [] "op" 1 true := by
  with_unfolding_all decide

/-- Claim C9, amended: report generation leaves every accumulator field
of every series unchanged (count, totalDuration, success/fail counts,
bottleneck count, min/max, details), but writes the derived fields
`avgDuration`, `successRate` and `bottleneckRate` onto each stored
series object, so the series objects themselves are mutated. -/
theorem claim_c9_accumulators_preserved (s : MetricsState) :
    (handleSummaryUpdate s).map (fun p => (p.1, accumView p.2))
      = s.map (fun p => (p.1, accumView p.2)) ∧
    ∀ p ∈ handleSummaryUpdate s,
      p.2.avgDuration.isSome ∧ p.2.successRate.isSome ∧ p.2.bottleneckRate.isSome := by
  constructor
  · have hacc : ∀ m : Series, accumView (summarizeSeries m) = accumView m := by
      intro m
      by_cases h : 0 < m.count <;> simp [summarizeSeries, accumView, h]
    simp [handleSummaryUpdate, List.map_map, Function.comp, hacc]
  · intro p hp
    simp only [handleSummaryUpdate, List.mem_map] at hp
    rcases hp with ⟨q, hq, rfl⟩
    by_cases h : 0 < q.2.count <;> simp [summarizeSeries, h]

/-- Claim C10: whenever the executor exhausts its budget, the returned
object has status 0, an empty body, error code `max_retries_exceeded`,
and a `json` accessor returning `undefined` for every path. -/
theorem claim_c10_exhausted_shape (env : Nat → AttemptEvent) (jitterOf : Nat → ℚ)
    (vu maxRetries : Nat) (baseBackoff : ℚ) (f : SyntheticFailure)
    (h : (makeRequest env jitterOf vu maxRetries baseBackoff).result = .failed f) :
    f.status = 0 ∧ f.body = "" ∧ f.error_code = "max_retries_exceeded" ∧
    ∀ p, f.json p = none := by
  have hspec := makeRequestLoop_result_spec env jitterOf vu maxRetries baseBackoff
    (maxRetries + 1) 0 0 none []
  rw [makeRequest] at h
  rcases hspec with ⟨r, hr, -⟩ | ⟨f', hf', h0, hb, hc, hj, -⟩
  · rw [h] at hr; cases hr
  · rw [h] at hf'
    cases hf'
    exact ⟨h0, hb, hc, hj⟩

/-- Witness for claim C10: with a zero budget and a throwing attempt,
the executor returns the synthetic failure carrying the exception. -/
theorem claim_c10_witness :
    synthBoom.status = 0 ∧ synthBoom.body = "" ∧
    synthBoom.error_code = "max_retries_exceeded" ∧
    ∀ p, synthBoom.json p = none :=
  claim_c10_exhausted_shape envExn noJitter 1 0 5 synthBoom rfl
